import Mathlib

/-!
Verification development for the `mc-ns-data-pipeline` repository
(`mastercontrol_pipeline`: `data_fetch_system` and `data_load_system`).

The Python sources are shallowly embedded below:
* dynamically-typed values that can be either an int or a string are
  embedded as the sum type `PyVal`;
* pandas DataFrames are embedded as Lean lists of structures holding the
  columns the pipeline reads or writes; a cell that can be NaN (the result
  of an unmatched left join) is an `Option`;
* HTTP responses are environment parameters: each driver-level function is
  parameterised by the (pure) responses the remote system would give;
* a pandas `merge` call that raises `ValueError` (schema / key-dtype
  mismatch, the exception class the source catches) is embedded as the
  `JoinOutcome.raises` constructor of the corresponding structure table.
-/

/-- A dynamically-typed Python scalar: the pipeline's "lot number" is either
the `int` `0` (unresolved) or a `str` taken from a capture row title. -/
inductive PyVal where
  | int : Int → PyVal
  | str : String → PyVal
  deriving DecidableEq, Repr

/-- Python `f"{v}"` on a `PyVal`. -/
def PyVal.fstr : PyVal → String
  | .int n => toString n
  | .str s => s

namespace StatusTrackerM

/-- One row of the status ledger CSV
(`status_tracker.py`, columns `Production Record ID, Lot Number, Status, Reason`). -/
structure StatusEntry where
  recordId : Int
  lotNumber : Option PyVal
  status : String
  reason : String
  deriving DecidableEq, Repr

/-- The in-memory `tracking_df`: the ordered sequence of appended entries. -/
abbrev Ledger := List StatusEntry

/-- Source `StatusTracker.is_already_processed` (status_tracker.py lines 34-41):
select the rows whose `Production Record ID` equals the query id; if that
selection is nonempty, return whether its first row (`iloc[0]`) has status
`"Success"`; otherwise return false. -/
def is_already_processed (ledger : Ledger) (productionRecordId : Int) : Bool :=
  match ledger.filter (fun e => e.recordId == productionRecordId) with
  | [] => false
  | e :: _ => e.status == "Success"

/-- Source `StatusTracker.log_status`: append one row at the end of the ledger. -/
def log_status (ledger : Ledger) (productionRecordId : Int)
    (lotNumber : Option PyVal) (status : String) (reason : String := "") : Ledger :=
  ledger ++ [⟨productionRecordId, lotNumber, status, reason⟩]

end StatusTrackerM

namespace CheckpointM

/-- Source `main` of bulk_fetch.py (lines 183-203): the start id is `--start` when
given, else the checkpoint's `last_processed_id + 1`; a non-positive start
id is clamped to `0`. -/
def resolve_start_id (argStart : Option Int) (lastProcessedId : Int) : Int :=
  let s := match argStart with
    | some v => v
    | none => lastProcessedId + 1
  if s ≤ 0 then 0 else s

end CheckpointM

section LedgerTheorems

open StatusTrackerM

/-- C2: the claim as written — `is_already_processed` returns true iff some
entry for the id has status `Success` — fails: with entries
`(5, Fail)` then `(5, Success)` a `Success` entry exists, yet the query
returns false because only the first matching entry is inspected. -/
theorem C2_counterexample :
    let ledger : Ledger :=
      [⟨5, none, "Fail", "timeout"⟩, ⟨5, some (.str "L5"), "Success", ""⟩]
    (∃ e ∈ ledger, e.recordId = 5 ∧ e.status = "Success") ∧
    is_already_processed ledger 5 = false := by
  refine ⟨⟨⟨5, some (.str "L5"), "Success", ""⟩, by simp, rfl, rfl⟩, rfl⟩

/-- C2 (amended): `is_already_processed id` returns true iff the *first*
ledger entry for `id` exists and has status `Success`; later entries for the
same id are never consulted. -/
theorem C2_amended (ledger : Ledger) (id : Int) :
    is_already_processed ledger id = true ↔
      ∃ e, ledger.find? (fun e => e.recordId == id) = some e ∧
        e.status = "Success" := by
  induction ledger with
  | nil => simp [is_already_processed]
  | cons e rest ih =>
    by_cases hid : e.recordId = id
    · simp [is_already_processed, List.filter_cons, List.find?, hid]
    · have hb : (e.recordId == id) = false := by simpa using hid
      simpa [is_already_processed, List.filter_cons, List.find?, hb] using ih

end LedgerTheorems

namespace ApiClientM

/-- A JSON response envelope as discriminated by
`MasterControlAPIClient.fetch_paginated_data` (api_client.py lines 39-73):
either a top-level `content` array, or a `pageResult.content` array, or an
unrecognized shape.  The `last` flag is read at top level in the first two
cases and may be absent (`none`). -/
inductive Envelope (α : Type) where
  | content : List α → Option Bool → Envelope α
  | pageResult : List α → Option Bool → Envelope α
  | unknown : Envelope α
  deriving DecidableEq, Repr

/-- The remote collection: the response delivered for each `currentPage`
index, `none` standing for `perform_get_request` returning `None` after
exhausting its retries. -/
abbrev PageSource (α : Type) := Nat → Option (Envelope α)

/-- The body of `fetch_paginated_data`'s `while not last_page` loop, with an
explicit fuel bound standing for the (unbounded) iteration count.  Returns
the accumulated data together with the list of `currentPage` indices that
were requested, in request order. -/
def fetch_paginated_go (pages : PageSource α) : Nat → Nat → List α × List Nat
  | _, 0 => ([], [])
  | page, fuel + 1 =>
    match pages page with
    | none => ([], [page])
    | some .unknown => ([], [page])
    | some (.content c l) =>
      if l.getD true then (c, [page])
      else
        let r := fetch_paginated_go pages (page + 1) fuel
        (c ++ r.1, page :: r.2)
    | some (.pageResult c l) =>
      if l.getD true then (c, [page])
      else
        let r := fetch_paginated_go pages (page + 1) fuel
        (c ++ r.1, page :: r.2)

/-- Source `MasterControlAPIClient.fetch_paginated_data`: all records across all
pages, starting from `currentPage = 0`. -/
def fetch_paginated_data (pages : PageSource α) (fuel : Nat) : List α :=
  (fetch_paginated_go pages 0 fuel).1

/-- The `currentPage` indices requested by `fetch_paginated_data`. -/
def fetch_paginated_requests (pages : PageSource α) (fuel : Nat) : List Nat :=
  (fetch_paginated_go pages 0 fuel).2

/-- An envelope of either recognized shape carrying content `c` and `last`
flag `l`. -/
def Envelope.carries (e : Envelope α) (c : List α) (l : Option Bool) : Prop :=
  e = .content c l ∨ e = .pageResult c l

end ApiClientM

section PaginationTheorems

open ApiClientM

/-- C6: for a source whose pages 0, 1, 2 carry `last = false, false, true`
(in either recognized envelope shape), `fetch_paginated_data` returns the
concatenation of the three pages' content in page order, and it requests
exactly pages 0, 1, 2 in increasing order; moreover an absent `last` flag
defaults to true, terminating after the first page. -/
theorem C6_pagination (α : Type) (pages : PageSource α) (c0 c1 c2 : List α)
    (e0 e1 e2 : Envelope α) (fuel : Nat)
    (h0 : pages 0 = some e0) (hc0 : e0.carries c0 (some false))
    (h1 : pages 1 = some e1) (hc1 : e1.carries c1 (some false))
    (h2 : pages 2 = some e2) (hc2 : e2.carries c2 (some true))
    (hfuel : 3 ≤ fuel) :
    fetch_paginated_data pages fuel = c0 ++ c1 ++ c2 ∧
    fetch_paginated_requests pages fuel = [0, 1, 2] ∧
    (∀ (pages' : PageSource α) (c : List α) (e : Envelope α),
      pages' 0 = some e → e.carries c none →
      fetch_paginated_data pages' fuel = c) := by
  obtain ⟨f, rfl⟩ : ∃ f, fuel = f + 3 := ⟨fuel - 3, by omega⟩
  refine ⟨?_, ?_, ?_⟩
  · unfold fetch_paginated_data fetch_paginated_go
    rw [h0]
    rcases hc0 with rfl | rfl <;>
    · simp only [Option.getD_some, if_neg Bool.false_ne_true]
      unfold fetch_paginated_go
      rw [h1]
      rcases hc1 with rfl | rfl <;>
      · simp only [Option.getD_some, if_neg Bool.false_ne_true]
        unfold fetch_paginated_go
        rw [h2]
        rcases hc2 with rfl | rfl <;> simp
  · unfold fetch_paginated_requests fetch_paginated_go
    rw [h0]
    rcases hc0 with rfl | rfl <;>
    · simp only [Option.getD_some, if_neg Bool.false_ne_true]
      unfold fetch_paginated_go
      rw [h1]
      rcases hc1 with rfl | rfl <;>
      · simp only [Option.getD_some, if_neg Bool.false_ne_true]
        unfold fetch_paginated_go
        rw [h2]
        rcases hc2 with rfl | rfl <;> simp
  · intro pages' c e he hc
    unfold fetch_paginated_data fetch_paginated_go
    rw [he]
    rcases hc with rfl | rfl <;> simp

/-- C6 witness: a concrete three-page source, mixing the two envelope
shapes, evaluated through `C6_pagination`. -/
theorem C6_pagination_witness :
    fetch_paginated_data
      (fun p => if p = 0 then some (.content [10, 11] (some false))
        else if p = 1 then some (.pageResult [20] (some false))
        else if p = 2 then some (.content [30] (some true))
        else none)
      5 = [10, 11, 20, 30] ∧
    fetch_paginated_requests
      (fun p => if p = 0 then some (.content [10, 11] (some false))
        else if p = 1 then some (.pageResult [20] (some false))
        else if p = 2 then some (.content [30] (some true))
        else none)
      5 = [0, 1, 2] := by
  have h := C6_pagination Nat
    (fun p => if p = 0 then some (.content [10, 11] (some false))
      else if p = 1 then some (.pageResult [20] (some false))
      else if p = 2 then some (.content [30] (some true))
      else none)
    [10, 11] [20] [30]
    (.content [10, 11] (some false)) (.pageResult [20] (some false))
    (.content [30] (some true)) 5
    rfl (Or.inl rfl) rfl (Or.inr rfl) rfl (Or.inl rfl) (by omega)
  exact ⟨h.1, h.2.1⟩

end PaginationTheorems

namespace UtilsM

/-- A wall-clock date-time, as produced by parsing a timestamp string. -/
structure DT where
  year : Int
  month : Int
  day : Int
  hour : Int
  minute : Int
  second : Int
  deriving DecidableEq, Repr

/-- Days since 1970-01-01 of a civil date (Gregorian, proleptic). -/
def daysFromCivil (y m d : Int) : Int :=
  let y' := y - (if m ≤ 2 then 1 else 0)
  let era := (if 0 ≤ y' then y' else y' - 399).fdiv 400
  let yoe := y' - era * 400
  let mp := (m + 9).emod 12
  let doy := (153 * mp + 2).fdiv 5 + d - 1
  let doe := yoe * 365 + yoe.fdiv 4 - yoe.fdiv 100 + doy
  era * 146097 + doe - 719468

/-- Civil date from days since 1970-01-01 (inverse of `daysFromCivil`). -/
def civilFromDays (z : Int) : Int × Int × Int :=
  let z' := z + 719468
  let era := z'.fdiv 146097
  let doe := z' - era * 146097
  let yoe := (doe - doe.fdiv 1460 + doe.fdiv 36524 - doe.fdiv 146096).fdiv 365
  let y := yoe + era * 400
  let doy := doe - (365 * yoe + yoe.fdiv 4 - yoe.fdiv 100)
  let mp := (5 * doy + 2).fdiv 153
  let d := doy - (153 * mp + 2).fdiv 5 + 1
  let m := mp + (if mp < 10 then 3 else -9)
  (y + (if m ≤ 2 then 1 else 0), m, d)

/-- Day of month of the `n`-th Sunday of month `m` in year `y`. -/
def nthSundayDay (y m n : Int) : Int :=
  let z1 := daysFromCivil y m 1
  let w := (z1 + 4).emod 7
  1 + (7 - w).emod 7 + 7 * (n - 1)

/-- Minutes since the epoch of a UTC date-time (seconds discarded: the
Eastern offset is a whole number of hours, so seconds never move). -/
def utcMinutes (dt : DT) : Int :=
  daysFromCivil dt.year dt.month dt.day * 1440 + dt.hour * 60 + dt.minute

/-- Whether a UTC instant falls in US daylight saving time for
`America/New_York` (post-2007 rule: from the second Sunday of March,
07:00 UTC, up to the first Sunday of November, 06:00 UTC). -/
def inEasternDST (dt : DT) : Bool :=
  let t := utcMinutes dt
  let dstStart := daysFromCivil dt.year 3 (nthSundayDay dt.year 3 2) * 1440 + 7 * 60
  let dstEnd := daysFromCivil dt.year 11 (nthSundayDay dt.year 11 1) * 1440 + 6 * 60
  dstStart ≤ t && t < dstEnd

/-- Model of the `pytz.timezone("America/New_York")` conversion: shift the UTC instant by
the Eastern offset (−4h during DST, −5h otherwise) and read the local
wall-clock fields back off. -/
def toEastern (dt : DT) : DT :=
  let offset : Int := if inEasternDST dt then -240 else -300
  let t := utcMinutes dt + offset
  let (y, m, d) := civilFromDays (t.fdiv 1440)
  let rem := t.emod 1440
  ⟨y, m, d, rem.fdiv 60, rem.emod 60, dt.second⟩

/-- Value of an ASCII digit character. -/
def digitVal (c : Char) : Option Int :=
  if c.isDigit then some ((c.toNat : Int) - 48) else none

/-- Parse a timestamp of the shape `YYYY-MM-DDTHH:MM:SS` with an optional
trailing `Z` (space accepted for `T`), validating the field ranges.  This
is the fragment of `dateutil.parser.parse` exercised by the pipeline's
source timestamps; any other string is "unparsable" here.  A naive result
is localized to UTC and an aware (`Z`) result is already UTC, so both
parse to the same UTC date-time, exactly as in utils.py lines 17-22. -/
def parseSourceTimestamp (s : String) : Option DT :=
  let cs := s.toList
  if cs.length = 20 then
    if cs.getLast? = some 'Z' then parseCore cs.dropLast else none
  else if cs.length = 19 then parseCore cs
  else none
where
  /-- Read the two-digit field at positions `i`, `i+1`. -/
  field2 (cs : List Char) (i : Nat) : Option Int := do
    let a ← cs.get? i >>= digitVal
    let b ← cs.get? (i + 1) >>= digitVal
    pure (a * 10 + b)
  /-- Decode a 19-character `YYYY-MM-DDTHH:MM:SS` core. -/
  parseCore (cs : List Char) : Option DT := do
    let sep ← cs.get? 10
    if cs.get? 4 = some '-' ∧ cs.get? 7 = some '-' ∧ (sep = 'T' ∨ sep = ' ') ∧
        cs.get? 13 = some ':' ∧ cs.get? 16 = some ':' then
      let yh ← field2 cs 0
      let yl ← field2 cs 2
      let m ← field2 cs 5
      let d ← field2 cs 8
      let h ← field2 cs 11
      let mi ← field2 cs 14
      let se ← field2 cs 17
      if 1 ≤ m ∧ m ≤ 12 ∧ 1 ≤ d ∧ d ≤ 31 ∧ h < 24 ∧ mi < 60 ∧ se < 60 then
        some ⟨yh * 100 + yl, m, d, h, mi, se⟩
      else none
    else none

/-- Python `%M`: minute zero-padded to two digits. -/
def pad2 (n : Int) : String :=
  if n < 10 then "0" ++ toString n else toString n

/-- Source `reformat_datetime` (utils.py lines 11-32): parse the string, convert
UTC to `America/New_York`, and format as
`f"{month}/{day}/{year} {hour}:{strftime('%M')}"`; on a parse failure the
original string is returned unchanged (and an error is logged). -/
def reformat_datetime (dateStr : String) : String :=
  match parseSourceTimestamp dateStr with
  | none => dateStr
  | some dt =>
    let e := toEastern dt
    toString e.month ++ "/" ++ toString e.day ++ "/" ++ toString e.year ++
      " " ++ toString e.hour ++ ":" ++ pad2 e.minute

end UtilsM

section TimestampTheorems

open UtilsM

/-- C7: the claim's example output is wrong: on `"2024-03-01T18:05:00Z"`
(Eastern offset −5h on that date) the code produces `"3/1/2024 13:05"` —
the minute is rendered with `strftime('%M')` and so *is* zero-padded —
not the claimed `"3/1/2024 13:5"`. -/
theorem C7_counterexample :
    reformat_datetime "2024-03-01T18:05:00Z" = "3/1/2024 13:05" ∧
    reformat_datetime "2024-03-01T18:05:00Z" ≠ "3/1/2024 13:5" := by
  constructor
  · rfl
  · intro h
    simpa using h.symm.trans (by rfl : reformat_datetime "2024-03-01T18:05:00Z" = "3/1/2024 13:05")

/-- C7 (amended): the reformatter converts a parsable UTC timestamp to the
fixed Eastern target zone and formats it as `M/D/YYYY H:MM` with no leading
zero on month, day, or hour but with the minute zero-padded to two digits
(`"2024-03-01T18:05:00Z"` under the −5h offset yields `"3/1/2024 13:05"`);
an unparsable input string is returned unchanged (with an error logged). -/
theorem C7_amended :
    reformat_datetime "2024-03-01T18:05:00Z" = "3/1/2024 13:05" ∧
    (∀ dt, parseSourceTimestamp "2024-03-01T18:05:00Z" = some dt →
      (toEastern dt).month = 3 ∧ (toEastern dt).day = 1 ∧
      (toEastern dt).hour = 13 ∧ (toEastern dt).minute = 5) ∧
    (∀ s, parseSourceTimestamp s = none → reformat_datetime s = s) := by
  refine ⟨rfl, ?_, ?_⟩
  · intro dt hdt
    have : dt = ⟨2024, 3, 1, 18, 5, 0⟩ := by
      have h : parseSourceTimestamp "2024-03-01T18:05:00Z" =
          some ⟨2024, 3, 1, 18, 5, 0⟩ := by rfl
      exact Option.some.inj (hdt.symm.trans h)
    subst this
    exact ⟨rfl, rfl, rfl, rfl⟩
  · intro s hs
    unfold reformat_datetime
    rw [hs]

/-- C7 witness: the passthrough branch of `C7_amended` at the concrete
unparsable string `"hello"`. -/
theorem C7_amended_witness :
    parseSourceTimestamp "hello" = none ∧ reformat_datetime "hello" = "hello" :=
  ⟨rfl, C7_amended.2.2 "hello" rfl⟩

end TimestampTheorems

namespace DataProcessorM

/-- One raw capture row as delivered by the `data_captures` endpoint after
`json_normalize` and `ensure_required_columns` (config.py
`REQUIRED_COLUMNS['data_capture']`, plus the `current` flag and the
optional `iterationNumber`; a missing column or NaN is `none`). -/
structure RawCapture where
  productionRecordId : Int
  masterTemplateId : Int
  unitProcedureId : Int
  operationId : Int
  phaseId : Int
  orderLabel : String
  title : String
  value : String
  userName : String
  dateTime : String
  actionTaken : String
  dataCaptureName : String
  current : Bool
  iterationNumber : Option Int
  deriving DecidableEq, Repr

/-- The per-row column fix-up in `fetch_production_record_data`: fill a
missing `iterationNumber` with the sentinel `-99999`, and suffix the order
label with ` - <iteration>` when the label is not `"0"` and the iteration
is not the sentinel. -/
def transformCapture (r : RawCapture) : RawCapture :=
  let iter := r.iterationNumber.getD (-99999)
  { r with
    iterationNumber := some iter
    orderLabel :=
      if r.orderLabel ≠ "0" ∧ iter ≠ -99999 then
        r.orderLabel ++ " - " ++ toString iter
      else r.orderLabel }

/-- Source `DataProcessor.fetch_production_record_data` (data_processor.py lines
48-95), applied to the rows the paginated fetch returned: if no rows, the
result is `(0, empty)`; otherwise keep only rows with `current = true`,
apply `transformCapture` to each, and take as lot number the `title` of the
first row whose `dataCaptureName` is `"BATCH_RECORD_CREATION"`; with no
such row the lot number is the Python int `0`. -/
def fetch_production_record_data (allData : List RawCapture) :
    PyVal × List RawCapture :=
  if allData.isEmpty then (.int 0, [])
  else
    let transformed := (allData.filter (fun r => r.current)).map transformCapture
    let lotNumbers :=
      (transformed.filter
        (fun r => r.dataCaptureName == "BATCH_RECORD_CREATION")).map
        (fun r => r.title)
    match lotNumbers with
    | [] => (.int 0, transformed)
    | t :: _ => (.str t, transformed)

/-- One processed row of either lot-summary lookup
(`fetch_batch_records_by_lot` / `fetch_data_capture_by_lot`), projected to
`REQUIRED_COLUMNS['batch_record']`. -/
structure LotRow where
  lotNumber : String
  productId : String
  productName : String
  status : String
  deriving DecidableEq, Repr

/-- A flattened Unit-Procedure structure row
(`DataProcessor._process_unit_procedures`). -/
structure UnitRow where
  masterTemplateId : Int
  unitProcedureId : Int
  unit : String
  deriving DecidableEq, Repr

/-- A flattened Operation structure row (`DataProcessor._process_operations`). -/
structure OpRow where
  masterTemplateId : Int
  unitProcedureId : Int
  operationId : Int
  operation : String
  deriving DecidableEq, Repr

/-- A flattened Phase structure row (`DataProcessor._process_phases`). -/
structure PhaseRow where
  masterTemplateId : Int
  unitProcedureId : Int
  operationId : Int
  phaseId : Int
  phase : String
  deriving DecidableEq, Repr

end DataProcessorM

namespace MergeM

open DataProcessorM UtilsM

/-- The outcome of offering a structure table to a pandas `merge` call:
either a usable table, or a table whose merge raises `ValueError`
(schema / key-dtype mismatch) — the exception class `_merge_data` catches. -/
inductive JoinOutcome (α : Type) where
  | ok : List α → JoinOutcome α
  | raises : JoinOutcome α
  deriving DecidableEq, Repr

/-- A row of `merged_df` between the scalar-metadata assignment and the
final column selection: the capture row, the four scalar columns, and the
three structure-name cells (absent column or NaN modelled as `none`). -/
structure MergedRow where
  rc : RawCapture
  masterTemplateName : String
  lotNumber : String
  productId : String
  prStatus : String
  unit : Option String := none
  operation : Option String := none
  phase : Option String := none
  deriving DecidableEq, Repr

/-- The scalar-metadata assignment (`capture_df['productName'].unique()[0]`
and friends): broadcast the first-seen value of each lot-summary column onto
every capture row.  In the pipeline `capDf` is nonempty whenever this runs. -/
def addScalars (recordDf : List RawCapture) (capDf : List LotRow) :
    List MergedRow :=
  let pn := ((capDf.map (fun c => c.productName)).headD "")
  let ln := ((capDf.map (fun c => c.lotNumber)).headD "")
  let pid := ((capDf.map (fun c => c.productId)).headD "")
  let st := ((capDf.map (fun c => c.status)).headD "")
  recordDf.map (fun r =>
    { rc := r, masterTemplateName := pn, lotNumber := ln, productId := pid,
      prStatus := st })

/-- pandas left merge with the Unit table on
`['masterTemplateId', 'unitProcedureId']`: every match duplicates the row;
no match leaves NaN. -/
def leftJoinUnit (rows : List MergedRow) (t : List UnitRow) : List MergedRow :=
  rows.flatMap (fun r =>
    match t.filter (fun u =>
        u.masterTemplateId == r.rc.masterTemplateId &&
        u.unitProcedureId == r.rc.unitProcedureId) with
    | [] => [{ r with unit := none }]
    | ms => ms.map (fun u => { r with unit := some u.unit }))

/-- pandas left merge with the Operation table on the Unit keys plus
`operationId`. -/
def leftJoinOp (rows : List MergedRow) (t : List OpRow) : List MergedRow :=
  rows.flatMap (fun r =>
    match t.filter (fun o =>
        o.masterTemplateId == r.rc.masterTemplateId &&
        o.unitProcedureId == r.rc.unitProcedureId &&
        o.operationId == r.rc.operationId) with
    | [] => [{ r with operation := none }]
    | ms => ms.map (fun o => { r with operation := some o.operation }))

/-- pandas left merge with the Phase table on the Operation keys plus
`phaseId`. -/
def leftJoinPhase (rows : List MergedRow) (t : List PhaseRow) : List MergedRow :=
  rows.flatMap (fun r =>
    match t.filter (fun p =>
        p.masterTemplateId == r.rc.masterTemplateId &&
        p.unitProcedureId == r.rc.unitProcedureId &&
        p.operationId == r.rc.operationId &&
        p.phaseId == r.rc.phaseId) with
    | [] => [{ r with phase := none }]
    | ms => ms.map (fun p => { r with phase := some p.phase }))

/-- The effect of an `except ValueError` handler assigning `""` to all three
structure columns. -/
def setAllEmpty (r : MergedRow) : MergedRow :=
  { r with unit := some "", operation := some "", phase := some "" }

/-- The structure-join block of bulk_fetch.py `_merge_data` (lines 111-137):
three nested `try` blocks, each `except ValueError` blanking exactly the
level that failed and the deeper levels, keeping the shallower completed
joins. -/
def mergeStructures_bulk (rows : List MergedRow) (u : JoinOutcome UnitRow)
    (o : JoinOutcome OpRow) (p : JoinOutcome PhaseRow) : List MergedRow :=
  match u with
  | .raises =>
    rows.map (fun r =>
      { r with unit := some "", operation := some "", phase := some "" })
  | .ok ut =>
    let r1 := leftJoinUnit rows ut
    match o with
    | .raises => r1.map (fun r => { r with operation := some "", phase := some "" })
    | .ok ot =>
      let r2 := leftJoinOp r1 ot
      match p with
      | .raises => r2.map (fun r => { r with phase := some "" })
      | .ok pt => leftJoinPhase r2 pt

/-- The structure-join block of incremental_fetch.py `_merge_data` (lines
97-107): one `try` around all three merges; the single `except ValueError`
assigns `""` to all of `Unit`, `Operation`, `Phase` on whatever frame the
interrupted merge chain left behind. -/
def mergeStructures_incr (rows : List MergedRow) (u : JoinOutcome UnitRow)
    (o : JoinOutcome OpRow) (p : JoinOutcome PhaseRow) : List MergedRow :=
  match u with
  | .raises => rows.map setAllEmpty
  | .ok ut =>
    let r1 := leftJoinUnit rows ut
    match o with
    | .raises => r1.map setAllEmpty
    | .ok ot =>
      let r2 := leftJoinOp r1 ot
      match p with
      | .raises => r2.map setAllEmpty
      | .ok pt => leftJoinPhase r2 pt

/-- One row of the final 14-column artifact, in the renamed output schema.
`unit`, `operation`, `phase` may be NaN (`none`) after an unmatched left
join. -/
structure ArtifactRow where
  masterTemplateName : String
  lotNumber : String
  productId : String
  unit : Option String
  operation : Option String
  phase : Option String
  dataCaptureTime : String
  productionRecordStatus : String
  structureLabel : String
  description : String
  inputDataValue : String
  performedBy : String
  actionPerformed : String
  capturedDataType : String
  deriving DecidableEq, Repr

/-- The final column selection and rename of `_merge_data`. -/
def selectRename (m : MergedRow) : ArtifactRow :=
  { masterTemplateName := m.masterTemplateName
    lotNumber := m.lotNumber
    productId := m.productId
    unit := m.unit
    operation := m.operation
    phase := m.phase
    dataCaptureTime := m.rc.dateTime
    productionRecordStatus := m.prStatus
    structureLabel := m.rc.orderLabel
    description := m.rc.title
    inputDataValue := m.rc.value
    performedBy := m.rc.userName
    actionPerformed := m.rc.actionTaken
    capturedDataType := m.rc.dataCaptureName }

/-- Effect of `x.str.strip()` applied to every object column. -/
def stripRow (r : ArtifactRow) : ArtifactRow :=
  { masterTemplateName := r.masterTemplateName.trim
    lotNumber := r.lotNumber.trim
    productId := r.productId.trim
    unit := r.unit.map String.trim
    operation := r.operation.map String.trim
    phase := r.phase.map String.trim
    dataCaptureTime := r.dataCaptureTime.trim
    productionRecordStatus := r.productionRecordStatus.trim
    structureLabel := r.structureLabel.trim
    description := r.description.trim
    inputDataValue := r.inputDataValue.trim
    performedBy := r.performedBy.trim
    actionPerformed := r.actionPerformed.trim
    capturedDataType := r.capturedDataType.trim }

/-- The tail of `_merge_data`, shared verbatim by both drivers: select and
rename the 14 output columns, strip whitespace, reformat the capture
timestamp, and drop rows whose `Performed By` starts with `VOD_`. -/
def finalize (rows : List MergedRow) : List ArtifactRow :=
  let selected := rows.map selectRename
  let stripped := selected.map stripRow
  let reformatted := stripped.map (fun r =>
    { r with dataCaptureTime := reformat_datetime r.dataCaptureTime })
  reformatted.filter (fun r => !(r.performedBy.startsWith "VOD_"))

/-- Source `ProductionRecordPipeline._merge_data` of bulk_fetch.py. -/
def merge_data_bulk (recordDf : List RawCapture) (capDf : List LotRow)
    (u : JoinOutcome UnitRow) (o : JoinOutcome OpRow) (p : JoinOutcome PhaseRow) :
    List ArtifactRow :=
  finalize (mergeStructures_bulk (addScalars recordDf capDf) u o p)

/-- Source `ProductionRecordPipeline._merge_data` of incremental_fetch.py. -/
def merge_data_incr (recordDf : List RawCapture) (capDf : List LotRow)
    (u : JoinOutcome UnitRow) (o : JoinOutcome OpRow) (p : JoinOutcome PhaseRow) :
    List ArtifactRow :=
  finalize (mergeStructures_incr (addScalars recordDf capDf) u o p)

end MergeM

namespace PipelineM

open DataProcessorM MergeM StatusTrackerM

/-- The remote system's responses for one production record id: the raw
capture rows behind `fetch_production_record_data`, the two lot-summary
lookups (primary `fetch_batch_records_by_lot`, secondary
`fetch_data_capture_by_lot`, both keyed by the derived lot number), and the
three structure tables from `fetch_production_structure_metadata` as merge
outcomes. -/
structure RecordEnv where
  rawCaptures : List RawCapture
  primary : PyVal → List LotRow
  secondary : PyVal → List LotRow
  unitJoin : JoinOutcome UnitRow
  opJoin : JoinOutcome OpRow
  phaseJoin : JoinOutcome PhaseRow

/-- Everything one `process_record` call does that the rest of the system
can observe: the ledger entry it appends, the artifact file it writes (path
directory omitted), and its calls to the two lot-summary lookups in call
order. -/
structure ProcResult where
  entry : StatusEntry
  file : Option (String × List ArtifactRow)
  primaryCalls : List PyVal
  secondaryCalls : List PyVal
  captureUsed : Option (List LotRow)
  deriving Repr

/-- Source `ProductionRecordPipeline.process_record` of incremental_fetch.py
(lines 53-81): fetch the record's capture data; an empty frame is a
terminal `Fail`; otherwise call the primary lookup, fall back to the
secondary when it is empty, `Fail` when both are empty; otherwise merge and
write `<lot>.csv` and log `Success`. -/
def process_record_incr (env : RecordEnv) (productionRecordId : Int) :
    ProcResult :=
  let fetched := fetch_production_record_data env.rawCaptures
  let lot := fetched.1
  let recordDf := fetched.2
  if recordDf.isEmpty then
    { entry := ⟨productionRecordId, none, "Fail",
        "fetch_production_record_data returned empty"⟩,
      file := none, primaryCalls := [], secondaryCalls := [],
      captureUsed := none }
  else
    let cap1 := env.primary lot
    if cap1.isEmpty then
      let cap2 := env.secondary lot
      if cap2.isEmpty then
        { entry := ⟨productionRecordId, some lot, "Fail",
            "Both API calls returned empty"⟩,
          file := none, primaryCalls := [lot], secondaryCalls := [lot],
          captureUsed := none }
      else
        { entry := ⟨productionRecordId, some lot, "Success", ""⟩,
          file := some (lot.fstr ++ ".csv",
            merge_data_incr recordDf cap2 env.unitJoin env.opJoin env.phaseJoin),
          primaryCalls := [lot], secondaryCalls := [lot],
          captureUsed := some cap2 }
    else
      { entry := ⟨productionRecordId, some lot, "Success", ""⟩,
        file := some (lot.fstr ++ ".csv",
          merge_data_incr recordDf cap1 env.unitJoin env.opJoin env.phaseJoin),
        primaryCalls := [lot], secondaryCalls := [],
        captureUsed := some cap1 }

/-- Source `ProductionRecordPipeline.process_record` of bulk_fetch.py (lines
46-99): same control flow as the incremental variant (the structure
metadata is fetched before the secondary fallback there, which is
unobservable in this pure embedding), with the bulk failure reason string
and the bulk `_merge_data`. -/
def process_record_bulk (env : RecordEnv) (productionRecordId : Int) :
    ProcResult :=
  let fetched := fetch_production_record_data env.rawCaptures
  let lot := fetched.1
  let recordDf := fetched.2
  if recordDf.isEmpty then
    { entry := ⟨productionRecordId, none, "Fail",
        "fetch_production_record_data returned empty"⟩,
      file := none, primaryCalls := [], secondaryCalls := [],
      captureUsed := none }
  else
    let cap1 := env.primary lot
    if cap1.isEmpty then
      let cap2 := env.secondary lot
      if cap2.isEmpty then
        { entry := ⟨productionRecordId, some lot, "Fail",
            "Both api_1 calls returned empty"⟩,
          file := none, primaryCalls := [lot], secondaryCalls := [lot],
          captureUsed := none }
      else
        { entry := ⟨productionRecordId, some lot, "Success", ""⟩,
          file := some (lot.fstr ++ ".csv",
            merge_data_bulk recordDf cap2 env.unitJoin env.opJoin env.phaseJoin),
          primaryCalls := [lot], secondaryCalls := [lot],
          captureUsed := some cap2 }
    else
      { entry := ⟨productionRecordId, some lot, "Success", ""⟩,
        file := some (lot.fstr ++ ".csv",
          merge_data_bulk recordDf cap1 env.unitJoin env.opJoin env.phaseJoin),
        primaryCalls := [lot], secondaryCalls := [],
        captureUsed := some cap1 }

/-- The run-level state: the status ledger, the checkpoint values written so
far (in write order), the ids handed to `process_record` (each of which is
immediately re-fetched — `fetch_production_record_data(production_record_id)`
is the first statement of `process_record`, unconditionally), and the
artifact files written. -/
structure RunState where
  ledger : Ledger
  checkpoints : List Int
  fetchedIds : List Int
  files : List (String × List ArtifactRow)

/-- Fold one `process_record` call's effects into the run state. -/
def applyProc (s : RunState) (productionRecordId : Int) (r : ProcResult) :
    RunState :=
  { s with
    ledger := s.ledger ++ [r.entry]
    fetchedIds := s.fetchedIds ++ [productionRecordId]
    files := s.files ++ (match r.file with | none => [] | some f => [f]) }

/-- Python `range(a, b + 1)` over integers. -/
def intRange (a b : Int) : List Int :=
  (List.range (b + 1 - a).toNat).map (fun i => a + (i : Int))

/-- Source `ProductionRecordPipeline.run` of bulk_fetch.py (lines 162-180): the
`while current_batch_start <= end_id` loop, processing
`range(current_batch_start, current_batch_end + 1)` and then saving a
checkpoint with `current_batch_end`, with explicit fuel for the unbounded
loop. -/
def run_bulk (env : Int → RecordEnv) (batchSize endId : Int) :
    RunState → Int → Nat → RunState
  | s, _, 0 => s
  | s, curStart, fuel + 1 =>
    if curStart ≤ endId then
      let batchEnd := min (curStart + batchSize - 1) endId
      let s1 := (intRange curStart batchEnd).foldl
        (fun st i => applyProc st i (process_record_bulk (env i) i)) s
      let s2 := { s1 with checkpoints := s1.checkpoints ++ [batchEnd] }
      run_bulk env batchSize endId s2 (batchEnd + 1) fuel
    else s

/-- Successive slices `l[i : i + bs]` for `i = 0, bs, 2*bs, ...` (the
batches of `range(0, len(id_list), batch_size)`), with fuel bounded by the
list length; for `bs ≥ 1` the fuel never runs out. -/
def chunksF (bs : Nat) : Nat → List α → List (List α)
  | 0, _ => []
  | _, [] => []
  | fuel + 1, l => l.take bs :: chunksF bs fuel (l.drop bs)

/-- The batch decomposition of `run` in incremental_fetch.py. -/
def chunks (bs : Nat) (l : List α) : List (List α) :=
  chunksF bs l.length l

/-- Source `ProductionRecordPipeline.run` of incremental_fetch.py (lines 42-51):
process each batch of ids, then save a checkpoint with `batch_ids[-1]`. -/
def run_incr (env : Int → RecordEnv) (s : RunState) (idList : List Int)
    (batchSize : Nat) : RunState :=
  (chunks batchSize idList).foldl
    (fun st batch =>
      let st1 := batch.foldl
        (fun st2 i => applyProc st2 i (process_record_incr (env i) i)) st
      { st1 with checkpoints := st1.checkpoints ++ [batch.getLast?.getD 0] })
    s

end PipelineM

section ProcessRecordTheorems

open DataProcessorM MergeM StatusTrackerM PipelineM

/-- C3: in both drivers, when the capture fetch returned at least one row:
if the primary lot lookup yields no rows and the secondary yields some, the
lot summary used for the merge is exactly the secondary's result; if both
yield no rows, the record is logged `Fail` with the driver's
"both calls returned empty" reason string, no artifact is written, and no
lot summary is used. -/
theorem C3_fallback (env : RecordEnv) (id : Int)
    (hrec : (fetch_production_record_data env.rawCaptures).2 ≠ []) :
    (env.primary (fetch_production_record_data env.rawCaptures).1 = [] →
      env.secondary (fetch_production_record_data env.rawCaptures).1 ≠ [] →
      (process_record_incr env id).captureUsed =
        some (env.secondary (fetch_production_record_data env.rawCaptures).1) ∧
      (process_record_bulk env id).captureUsed =
        some (env.secondary (fetch_production_record_data env.rawCaptures).1)) ∧
    (env.primary (fetch_production_record_data env.rawCaptures).1 = [] →
      env.secondary (fetch_production_record_data env.rawCaptures).1 = [] →
      (process_record_incr env id).entry =
        ⟨id, some (fetch_production_record_data env.rawCaptures).1, "Fail",
          "Both API calls returned empty"⟩ ∧
      (process_record_incr env id).file = none ∧
      (process_record_incr env id).captureUsed = none ∧
      (process_record_bulk env id).entry =
        ⟨id, some (fetch_production_record_data env.rawCaptures).1, "Fail",
          "Both api_1 calls returned empty"⟩ ∧
      (process_record_bulk env id).file = none ∧
      (process_record_bulk env id).captureUsed = none) := by
  have hempty : (fetch_production_record_data env.rawCaptures).2.isEmpty = false := by
    cases h : (fetch_production_record_data env.rawCaptures).2 with
    | nil => exact absurd h hrec
    | cons a l => rfl
  constructor
  · intro hp hs
    have hs' : (env.secondary (fetch_production_record_data env.rawCaptures).1).isEmpty = false := by
      cases h : env.secondary (fetch_production_record_data env.rawCaptures).1 with
      | nil => exact absurd h hs
      | cons a l => rfl
    constructor
    · simp only [process_record_incr, hempty, hp, hs']
      simp
    · simp only [process_record_bulk, hempty, hp, hs']
      simp
  · intro hp hs
    refine ⟨?_, ?_, ?_, ?_, ?_, ?_⟩ <;>
    · first
      | (simp only [process_record_incr, hempty, hp, hs]; simp)
      | (simp only [process_record_bulk, hempty, hp, hs]; simp)

/-- A concrete capture row whose name is the batch-creation marker. -/
def sampleCreationRow : RawCapture :=
  { productionRecordId := 7, masterTemplateId := 10, unitProcedureId := 20,
    operationId := 30, phaseId := 40, orderLabel := "1", title := "L1",
    value := "v", userName := "jdoe", dateTime := "2024-03-01T18:05:00Z",
    actionTaken := "Entered", dataCaptureName := "BATCH_RECORD_CREATION",
    current := true, iterationNumber := none }

/-- A concrete lot-summary row. -/
def sampleLotRow : LotRow :=
  { lotNumber := "L1", productId := "P1", productName := "N1", status := "Done" }

/-- An environment whose primary lookup is empty and secondary nonempty. -/
def envFallback : RecordEnv :=
  { rawCaptures := [sampleCreationRow],
    primary := fun _ => [],
    secondary := fun _ => [sampleLotRow],
    unitJoin := .ok [], opJoin := .ok [], phaseJoin := .ok [] }

/-- An environment whose two lookups are both empty. -/
def envBothEmpty : RecordEnv :=
  { rawCaptures := [sampleCreationRow],
    primary := fun _ => [],
    secondary := fun _ => [],
    unitJoin := .ok [], opJoin := .ok [], phaseJoin := .ok [] }

/-- C3 witness: `C3_fallback` applied to the two concrete environments. -/
theorem C3_fallback_witness :
    (process_record_incr envFallback 7).captureUsed = some [sampleLotRow] ∧
    (process_record_incr envBothEmpty 7).entry =
      ⟨7, some (.str "L1"), "Fail", "Both API calls returned empty"⟩ := by
  have h1 := (C3_fallback envFallback 7 (by decide)).1 (by decide) (by decide)
  have h2 := (C3_fallback envBothEmpty 7 (by decide)).2 (by decide) (by decide)
  refine ⟨?_, ?_⟩
  · have := h1.1
    rw [this]
    decide
  · have := h2.1
    rw [this]
    decide

/-- C9: when the capture fetch yields at least one `current = true` row but
none of the current rows is a `BATCH_RECORD_CREATION` row, the derived lot
number is the Python int `0` (not a failure): the primary lot lookup is
called with `0`, the secondary is called (also with `0`) exactly when the
primary is empty, and whatever artifact file is written is named
`"0.csv"`. -/
theorem C9_unresolved_lot (env : RecordEnv) (id : Int)
    (hcur : env.rawCaptures.filter (fun r => r.current) ≠ [])
    (hname : ∀ r ∈ env.rawCaptures.filter (fun r => r.current),
      r.dataCaptureName ≠ "BATCH_RECORD_CREATION") :
    (fetch_production_record_data env.rawCaptures).1 = PyVal.int 0 ∧
    (process_record_incr env id).primaryCalls = [PyVal.int 0] ∧
    (env.primary (PyVal.int 0) = [] →
      (process_record_incr env id).secondaryCalls = [PyVal.int 0]) ∧
    (∀ f rows, (process_record_incr env id).file = some (f, rows) →
      f = "0.csv") := by
  have hne : env.rawCaptures ≠ [] := by
    intro h
    rw [h] at hcur
    exact hcur rfl
  have hisEmpty : env.rawCaptures.isEmpty = false := by
    cases h : env.rawCaptures with
    | nil => exact absurd h hne
    | cons a l => rfl
  have hfilt :
      ((env.rawCaptures.filter (fun r => r.current)).map transformCapture).filter
        (fun r => r.dataCaptureName == "BATCH_RECORD_CREATION") = [] := by
    rw [List.filter_map]
    have hinner : (env.rawCaptures.filter (fun r => r.current)).filter
        ((fun r : RawCapture => r.dataCaptureName == "BATCH_RECORD_CREATION") ∘
          transformCapture) = [] := by
      rw [List.filter_eq_nil_iff]
      intro r hr
      have := hname r hr
      simp only [Function.comp_apply, transformCapture]
      simpa using this
    rw [hinner]
    rfl
  have hlot : (fetch_production_record_data env.rawCaptures).1 = PyVal.int 0 := by
    unfold fetch_production_record_data
    rw [hisEmpty]
    simp only [Bool.false_eq_true, if_false]
    rw [hfilt]
    rfl
  have hdf : (fetch_production_record_data env.rawCaptures).2 =
      (env.rawCaptures.filter (fun r => r.current)).map transformCapture := by
    unfold fetch_production_record_data
    rw [hisEmpty]
    simp only [Bool.false_eq_true, if_false]
    rw [hfilt]
    rfl
  have hdfne : (fetch_production_record_data env.rawCaptures).2.isEmpty = false := by
    rw [hdf]
    cases h : env.rawCaptures.filter (fun r => r.current) with
    | nil => exact absurd h hcur
    | cons a l => rfl
  refine ⟨hlot, ?_, ?_, ?_⟩
  · simp only [process_record_incr, hdfne, Bool.false_eq_true, if_false, hlot]
    by_cases hp : env.primary (PyVal.int 0) = [] <;>
      by_cases hs : env.secondary (PyVal.int 0) = [] <;>
      simp [hp, hs]
  · intro hp
    simp only [process_record_incr, hdfne, Bool.false_eq_true, if_false, hlot, hp]
    by_cases hs : env.secondary (PyVal.int 0) = [] <;> simp [hp, hs]
  · intro f rows hfile
    simp only [process_record_incr, hdfne, Bool.false_eq_true, if_false, hlot] at hfile
    by_cases hp : env.primary (PyVal.int 0) = []
    · by_cases hs : env.secondary (PyVal.int 0) = []
      · simp [hp, hs] at hfile
      · simp [hp, hs] at hfile
        rw [← hfile.1]
        decide
    · simp [hp] at hfile
      rw [← hfile.1]
      decide

/-- An environment with one current capture row that is not a
batch-creation row, and a nonempty primary lookup. -/
def envNoMarker : RecordEnv :=
  { rawCaptures := [{ sampleCreationRow with dataCaptureName := "TEMPERATURE" }],
    primary := fun _ => [sampleLotRow],
    secondary := fun _ => [],
    unitJoin := .ok [], opJoin := .ok [], phaseJoin := .ok [] }

/-- C9 witness: `C9_unresolved_lot` applied to the concrete `envNoMarker`. -/
theorem C9_unresolved_lot_witness :
    (fetch_production_record_data envNoMarker.rawCaptures).1 = PyVal.int 0 ∧
    (process_record_incr envNoMarker 3).primaryCalls = [PyVal.int 0] := by
  have h := C9_unresolved_lot envNoMarker 3 (by decide) (by decide)
  exact ⟨h.1, h.2.1⟩

end ProcessRecordTheorems

section MergeTheorems

open DataProcessorM MergeM

/-- Every row of the input contributes at least one row to a `flatMap`. -/
theorem length_le_flatMap (l : List α) (f : α → List β)
    (h : ∀ a, 1 ≤ (f a).length) : l.length ≤ (l.flatMap f).length := by
  induction l with
  | nil => simp
  | cons a rest ih =>
    rw [List.flatMap_cons, List.length_append, List.length_cons]
    have := h a
    omega

/-- A left join never drops rows. -/
theorem leftJoinUnit_length (rows : List MergedRow) (t : List UnitRow) :
    rows.length ≤ (leftJoinUnit rows t).length := by
  apply length_le_flatMap
  intro r
  cases h : t.filter (fun u =>
      u.masterTemplateId == r.rc.masterTemplateId &&
      u.unitProcedureId == r.rc.unitProcedureId) with
  | nil => simp
  | cons a l => simp

/-- A left join never drops rows. -/
theorem leftJoinOp_length (rows : List MergedRow) (t : List OpRow) :
    rows.length ≤ (leftJoinOp rows t).length := by
  apply length_le_flatMap
  intro r
  cases h : t.filter (fun o =>
      o.masterTemplateId == r.rc.masterTemplateId &&
      o.unitProcedureId == r.rc.unitProcedureId &&
      o.operationId == r.rc.operationId) with
  | nil => simp
  | cons a l => simp

/-- A left join never drops rows. -/
theorem leftJoinPhase_length (rows : List MergedRow) (t : List PhaseRow) :
    rows.length ≤ (leftJoinPhase rows t).length := by
  apply length_le_flatMap
  intro r
  cases h : t.filter (fun p =>
      p.masterTemplateId == r.rc.masterTemplateId &&
      p.unitProcedureId == r.rc.unitProcedureId &&
      p.operationId == r.rc.operationId &&
      p.phaseId == r.rc.phaseId) with
  | nil => simp
  | cons a l => simp

/-- C4: the claim fails for the incremental Merge Engine: on a capture row
whose unit join succeeds (yielding `Unit = "U1"`) and whose operation join
raises, the single `except ValueError` handler blanks *all three* structure
columns, so the completed Unit level does *not* keep its joined value. -/
theorem C4_counterexample :
    ((leftJoinUnit (addScalars [sampleCreationRow] [sampleLotRow])
        [⟨10, 20, "U1"⟩]).map (fun r => r.unit) = [some "U1"]) ∧
    ((mergeStructures_incr (addScalars [sampleCreationRow] [sampleLotRow])
        (.ok [⟨10, 20, "U1"⟩]) .raises (.ok [])).map (fun r => r.unit) =
      [some ""]) := by
  decide

/-- C4 (amended): in the bulk Merge Engine a join-step `ValueError` at the
Unit, Operation, or Phase level blanks exactly that level and the deeper
levels while completed shallower joins keep their joined values, and no
join outcome ever shrinks the record's row set (the record is never
aborted); in the incremental Merge Engine a `ValueError` at any level
blanks all three structure columns (still without aborting the record). -/
theorem C4_amended (rows : List MergedRow) (ut : List UnitRow) (ot : List OpRow)
    (o : JoinOutcome OpRow) (p : JoinOutcome PhaseRow) :
    (mergeStructures_bulk rows .raises o p =
      rows.map (fun r =>
        { r with unit := some "", operation := some "", phase := some "" })) ∧
    (mergeStructures_bulk rows (.ok ut) .raises p =
      (leftJoinUnit rows ut).map (fun r =>
        { r with operation := some "", phase := some "" })) ∧
    (mergeStructures_bulk rows (.ok ut) (.ok ot) .raises =
      (leftJoinOp (leftJoinUnit rows ut) ot).map (fun r =>
        { r with phase := some "" })) ∧
    (∀ (u2 : JoinOutcome UnitRow) (o2 : JoinOutcome OpRow)
        (p2 : JoinOutcome PhaseRow),
      rows.length ≤ (mergeStructures_bulk rows u2 o2 p2).length ∧
      rows.length ≤ (mergeStructures_incr rows u2 o2 p2).length) ∧
    (∀ (u2 : JoinOutcome UnitRow) (o2 : JoinOutcome OpRow)
        (p2 : JoinOutcome PhaseRow),
      u2 = JoinOutcome.raises ∨ o2 = JoinOutcome.raises ∨
        p2 = JoinOutcome.raises →
      (mergeStructures_incr rows u2 o2 p2).all (fun r =>
        r.unit == some "" && r.operation == some "" && r.phase == some "") =
        true) := by
  refine ⟨rfl, rfl, rfl, ?_, ?_⟩
  · intro u2 o2 p2
    constructor
    · cases u2 with
      | raises => simp [mergeStructures_bulk]
      | ok ut2 =>
        cases o2 with
        | raises =>
          simp only [mergeStructures_bulk, List.length_map]
          exact leftJoinUnit_length rows ut2
        | ok ot2 =>
          cases p2 with
          | raises =>
            simp only [mergeStructures_bulk, List.length_map]
            exact le_trans (leftJoinUnit_length rows ut2)
              (leftJoinOp_length (leftJoinUnit rows ut2) ot2)
          | ok pt2 =>
            simp only [mergeStructures_bulk]
            exact le_trans (leftJoinUnit_length rows ut2)
              (le_trans (leftJoinOp_length (leftJoinUnit rows ut2) ot2)
                (leftJoinPhase_length (leftJoinOp (leftJoinUnit rows ut2) ot2) pt2))
    · cases u2 with
      | raises => simp [mergeStructures_incr]
      | ok ut2 =>
        cases o2 with
        | raises =>
          simp only [mergeStructures_incr, List.length_map]
          exact leftJoinUnit_length rows ut2
        | ok ot2 =>
          cases p2 with
          | raises =>
            simp only [mergeStructures_incr, List.length_map]
            exact le_trans (leftJoinUnit_length rows ut2)
              (leftJoinOp_length (leftJoinUnit rows ut2) ot2)
          | ok pt2 =>
            simp only [mergeStructures_incr]
            exact le_trans (leftJoinUnit_length rows ut2)
              (le_trans (leftJoinOp_length (leftJoinUnit rows ut2) ot2)
                (leftJoinPhase_length (leftJoinOp (leftJoinUnit rows ut2) ot2) pt2))
  · intro u2 o2 p2 hraise
    have hall : ∀ (l : List MergedRow),
        (l.map setAllEmpty).all (fun r =>
          r.unit == some "" && r.operation == some "" && r.phase == some "") =
          true := by
      intro l
      rw [List.all_eq_true]
      intro r hr
      obtain ⟨y, _, rfl⟩ := List.mem_map.mp hr
      rfl
    cases u2 with
    | raises => exact hall rows
    | ok ut2 =>
      cases o2 with
      | raises => exact hall (leftJoinUnit rows ut2)
      | ok ot2 =>
        cases p2 with
        | raises => exact hall (leftJoinOp (leftJoinUnit rows ut2) ot2)
        | ok pt2 =>
          rcases hraise with h | h | h <;> exact absurd h (by simp)

/-- C4 witness: the blank-all clause of `C4_amended` discharged at the
concrete merge of `C4_counterexample`. -/
theorem C4_amended_witness :
    (mergeStructures_incr (addScalars [sampleCreationRow] [sampleLotRow])
      (.ok [⟨10, 20, "U1"⟩]) .raises (.ok [])).all (fun r =>
        r.unit == some "" && r.operation == some "" && r.phase == some "") =
      true :=
  (C4_amended (addScalars [sampleCreationRow] [sampleLotRow]) [⟨10, 20, "U1"⟩]
    [] JoinOutcome.raises (.ok [])).2.2.2.2 (.ok [⟨10, 20, "U1"⟩])
    JoinOutcome.raises (.ok []) (Or.inr (Or.inl rfl))

end MergeTheorems

section RunTheorems

open DataProcessorM MergeM StatusTrackerM PipelineM CheckpointM

/-- Folding `process_record` effects over a batch never touches the
checkpoint list — only `save_checkpoint` does. -/
theorem foldl_applyProc_checkpoints (proc : Int → ProcResult) (ids : List Int)
    (s : RunState) :
    (ids.foldl (fun st i => applyProc st i (proc i)) s).checkpoints =
      s.checkpoints := by
  induction ids generalizing s with
  | nil => rfl
  | cons i rest ih =>
    rw [List.foldl_cons, ih]
    rfl

/-- The checkpoint writes of the incremental `run`: one per batch, carrying
the batch's last id, whatever the per-identifier outcomes were. -/
theorem run_incr_checkpoints (env : Int → RecordEnv) (s : RunState)
    (idList : List Int) (bs : Nat) :
    (run_incr env s idList bs).checkpoints =
      s.checkpoints ++
        (chunks bs idList).map (fun b => b.getLast?.getD 0) := by
  unfold run_incr
  generalize chunks bs idList = batches
  induction batches generalizing s with
  | nil => simp
  | cons b rest ih =>
    rw [List.foldl_cons, ih]
    simp only [List.map_cons]
    rw [foldl_applyProc_checkpoints]
    simp

/-- The checkpoint values written by the bulk `run` loop strictly increase. -/
theorem run_bulk_checkpoints_mono (env : Int → RecordEnv) (bs endId : Int)
    (hbs : 1 ≤ bs) :
    ∀ (fuel : Nat) (s : RunState) (curStart : Int),
      List.Chain' (· < ·) s.checkpoints →
      (∀ x ∈ s.checkpoints, x < curStart) →
      List.Chain' (· < ·)
        ((run_bulk env bs endId s curStart fuel).checkpoints) := by
  intro fuel
  induction fuel with
  | zero => intro s curStart h1 _; exact h1
  | succ f ih =>
    intro s curStart h1 h2
    unfold run_bulk
    by_cases hcond : curStart ≤ endId
    · simp only [hcond, if_true]
      apply ih
      · rw [foldl_applyProc_checkpoints]
        rw [List.chain'_append]
        refine ⟨h1, List.chain'_singleton _, ?_⟩
        intro x hx y hy
        have hxm : x ∈ s.checkpoints := by
          obtain ⟨hne, hxe⟩ := List.mem_getLast?_eq_getLast hx
          rw [hxe]
          exact List.getLast_mem hne
        have hxc := h2 x hxm
        have hy0 : min (curStart + bs - 1) endId = y := by simpa using hy
        have hcs : curStart ≤ min (curStart + bs - 1) endId :=
          le_min (by omega) hcond
        omega
      · intro x hx
        rw [foldl_applyProc_checkpoints] at hx
        rw [List.mem_append] at hx
        have hcs : curStart ≤ min (curStart + bs - 1) endId :=
          le_min (by omega) hcond
        rcases hx with hx | hx
        · have := h2 x hx
          omega
        · simp at hx
          omega
    · simp only [hcond, if_false]
      exact h1

/-- C8: the claim fails for the incremental driver: its id list comes in
source order (a Python set), and running batches `[5]` then `[3]` writes
the checkpoint sequence `[5, 3]`, which does not advance monotonically. -/
theorem C8_counterexample :
    (run_incr (fun _ => envBothEmpty) ⟨[], [], [], []⟩ [5, 3] 1).checkpoints =
      [5, 3] ∧
    ¬ List.Chain' (· ≤ ·)
      ((run_incr (fun _ => envBothEmpty) ⟨[], [], [], []⟩ [5, 3] 1).checkpoints) := by
  have h : (run_incr (fun _ => envBothEmpty) ⟨[], [], [], []⟩ [5, 3] 1).checkpoints =
      [5, 3] := by decide
  refine ⟨h, ?_⟩
  rw [h]
  intro hc
  have := (List.chain'_cons.mp hc).1
  omega

/-- C8 (amended): after every batch the checkpoint is saved unconditionally
with the batch's last identifier — the checkpoint sequence is a function of
the id batches alone, independent of any per-identifier success or failure
— and in the bulk range-driven `run` the written checkpoint values strictly
increase across batch boundaries; in the incremental list-driven `run` they
follow the order of the id list and need not be monotone. -/
theorem C8_amended :
    (∀ (env : Int → RecordEnv) (s : RunState) (idList : List Int) (bs : Nat),
      (run_incr env s idList bs).checkpoints =
        s.checkpoints ++
          (chunks bs idList).map (fun b => b.getLast?.getD 0)) ∧
    (∀ (env : Int → RecordEnv) (bs endId : Int) (fuel : Nat) (s : RunState)
        (curStart : Int),
      1 ≤ bs →
      List.Chain' (· < ·) s.checkpoints →
      (∀ x ∈ s.checkpoints, x < curStart) →
      List.Chain' (· < ·)
        ((run_bulk env bs endId s curStart fuel).checkpoints)) :=
  ⟨run_incr_checkpoints,
   fun env bs endId fuel s curStart hbs =>
     run_bulk_checkpoints_mono env bs endId hbs fuel s curStart⟩

/-- C8 witness: `C8_amended` at a concrete bulk run (ids 0..5, batch size 2)
whose checkpoint sequence evaluates to `[1, 3, 5]`, strictly increasing. -/
theorem C8_amended_witness :
    List.Chain' (· < ·)
      ((run_bulk (fun _ => envBothEmpty) 2 5 ⟨[], [], [], []⟩ 0 10).checkpoints) ∧
    (run_bulk (fun _ => envBothEmpty) 2 5 ⟨[], [], [], []⟩ 0 10).checkpoints =
      [1, 3, 5] :=
  ⟨C8_amended.2 (fun _ => envBothEmpty) 2 5 10 ⟨[], [], [], []⟩ 0 (by decide)
      (List.chain'_nil) (by simp),
   by decide⟩

/-- C1: the resumption half of the claim holds — with no `--start` the run
begins at the checkpoint's `last_processed_id + 1` — but the skipping half
is contradicted by the code: `StatusTracker.is_already_processed` is never
called by either driver, so an identifier with a `Success` ledger entry is
fetched again by a re-run covering it.  Concretely: with checkpoint 4, no
`--start`, `--end` 5, and a ledger holding `(5, Success)`, the run still
hands id 5 to `process_record`, whose first statement re-fetches it. -/
theorem C1_codebug :
    resolve_start_id none 4 = 5 ∧
    is_already_processed [⟨5, some (.str "L5"), "Success", ""⟩] 5 = true ∧
    (run_bulk (fun _ => envBothEmpty) 100 5
        ⟨[⟨5, some (.str "L5"), "Success", ""⟩], [], [], []⟩ 5 2).fetchedIds =
      [5] := by
  refine ⟨rfl, rfl, ?_⟩
  decide

end RunTheorems

namespace LoaderM

/-- One row of an artifact CSV as read by the Loader
(`FileProcessor.process_csv_file`), in the 14-column artifact schema. -/
structure CsvRow where
  masterTemplateName : String
  lotNumber : String
  productId : String
  unit : String
  operation : String
  phase : String
  dataCaptureTime : String
  productionRecordStatus : String
  structureLabel : String
  description : String
  inputDataValue : String
  performedBy : String
  actionPerformed : String
  capturedDataType : String
  deriving DecidableEq, Repr

/-- Source `FileProcessor.calculate_row_hash`: a deterministic content hash over
`Structure Label | Description | Input Data Value | Data Capture Time`.
The md5 digest is modelled by the hashed key string itself — only the
hash's determinism in the row is observable to the claims. -/
def calculate_row_hash (row : CsvRow) : String :=
  row.structureLabel ++ "|" ++ row.description ++ "|" ++
    row.inputDataValue ++ "|" ++ row.dataCaptureTime

/-- Source `FileProcessor.extract_lot_info` (file_processor.py lines 19-35): the
first row's `Lot Number` supersedes the filename-derived one (a mismatch is
logged); product id, name, and status also come from the first row. -/
def extract_lot_info (df : List CsvRow) (filenameLotNumber : String) :
    String × String × String × String :=
  match df with
  | [] => (filenameLotNumber, "", "", "")
  | row :: _ =>
    (row.lotNumber, row.productId, row.masterTemplateName,
      row.productionRecordStatus)

/-- A row of the destination `lots` table (timestamps omitted: they are set
to `CURRENT_TIMESTAMP` by the store and never read by the claims). -/
structure LotRec where
  lotNumber : String
  productId : String
  productName : String
  status : String
  deriving DecidableEq, Repr

/-- A row of `lot_data` (the detail table): the 14 artifact columns
flattened plus `lot_number` and `data_hash`. -/
structure LotDataRec where
  lotNumber : String
  masterTemplateName : String
  unit : String
  operation : String
  phase : String
  dataCaptureTime : String
  structureLabel : String
  description : String
  inputDataValue : String
  performedBy : String
  actionPerformed : String
  capturedDataType : String
  dataHash : String
  deriving DecidableEq, Repr

/-- A row of `file_processing_history` (append-only audit trail). -/
structure HistoryRec where
  filename : String
  lotNumber : String
  processType : String
  recordCount : Nat
  status : String
  message : String
  deriving DecidableEq, Repr

/-- The destination store visible to the Loader. -/
structure DBState where
  lots : List LotRec
  lotData : List LotDataRec
  history : List HistoryRec
  deriving DecidableEq, Repr

/-- Source `FileProcessor.prepare_data_for_insert`: one `lot_data` tuple per CSV
row, carrying the extracted lot number (not the row's own) and the row's
content hash.  The `pd.to_datetime` normalization of the capture time is a
deterministic per-row transform the claims never inspect; it is modelled as
the identity on the stored string. -/
def prepare_data_for_insert (df : List CsvRow) (lotNumber : String) :
    List LotDataRec :=
  df.map (fun row =>
    { lotNumber := lotNumber
      masterTemplateName := row.masterTemplateName
      unit := row.unit
      operation := row.operation
      phase := row.phase
      dataCaptureTime := row.dataCaptureTime
      structureLabel := row.structureLabel
      description := row.description
      inputDataValue := row.inputDataValue
      performedBy := row.performedBy
      actionPerformed := row.actionPerformed
      capturedDataType := row.capturedDataType
      dataHash := calculate_row_hash row })

/-- Source `DatabaseOperations.check_lot_exists`. -/
def check_lot_exists (lots : List LotRec) (lotNumber : String) : Bool :=
  lots.any (fun l => l.lotNumber == lotNumber)

/-- Source `DatabaseOperations.insert_lot` and `update_lot`, dispatched exactly as in
`process_csv_file` lines 87-93. -/
def upsert_lot (lots : List LotRec) (lotNumber productId productName status : String) :
    List LotRec :=
  if check_lot_exists lots lotNumber then
    lots.map (fun l =>
      if l.lotNumber == lotNumber then
        { l with productId := productId, productName := productName,
                 status := status }
      else l)
  else
    lots ++ [⟨lotNumber, productId, productName, status⟩]

/-- Source `FileProcessor.process_csv_file` (file_processor.py lines 59-113) on a
CSV that parsed successfully, for a connection whose operations succeed:
an empty frame returns 0 untouched; otherwise extract the lot identity,
upsert the lot, delete the lot's existing detail rows when (and only when)
`process_type == 'incremental_load'`, insert the prepared detail rows, and
append one success history entry; returns the inserted row count. -/
def process_csv_file (filenameLotNumber : String) (rows : List CsvRow)
    (processType : String) (s : DBState) : Nat × DBState :=
  if rows.isEmpty then (0, s)
  else
    let info := extract_lot_info rows filenameLotNumber
    let lotNumber := info.1
    let s1 := { s with
      lots := upsert_lot s.lots lotNumber info.2.1 info.2.2.1 info.2.2.2 }
    let s2 :=
      if processType == "incremental_load" then
        { s1 with lotData := s1.lotData.filter (fun r => !(r.lotNumber == lotNumber)) }
      else s1
    let toInsert := prepare_data_for_insert rows lotNumber
    let s3 := { s2 with
      lotData := s2.lotData ++ toInsert
      history := s2.history ++
        [⟨filenameLotNumber ++ ".csv", lotNumber, processType, toInsert.length,
          "success", "Processed " ++ toString toInsert.length ++ " records"⟩] }
    (toInsert.length, s3)

end LoaderM

section LoaderTheorems

open LoaderM

/-- Every prepared detail row carries the extracted lot number. -/
theorem prepare_lotNumber (df : List CsvRow) (ln : String) :
    ∀ r ∈ prepare_data_for_insert df ln, r.lotNumber = ln := by
  intro r hr
  obtain ⟨row, _, rfl⟩ := List.mem_map.mp hr
  rfl

/-- C5: the Loader's incremental mode is a full replace — running it twice
on the same artifact leaves exactly the detail-row set one run leaves, both
for the artifact's lot and for the whole `lot_data` table — and bulk
(`initial_load`) mode never deletes: the prior `lot_data` rows survive as a
prefix of the result. -/
theorem C5_idempotent_replace (filenameLot : String) (rows : List CsvRow)
    (s : DBState) :
    ((process_csv_file filenameLot rows "incremental_load"
        (process_csv_file filenameLot rows "incremental_load" s).2).2.lotData =
      (process_csv_file filenameLot rows "incremental_load" s).2.lotData) ∧
    s.lotData <+: (process_csv_file filenameLot rows "initial_load" s).2.lotData := by
  constructor
  · cases rows with
    | nil => rfl
    | cons row rest =>
      simp only [process_csv_file, List.isEmpty_cons, Bool.false_eq_true,
        if_false]
      set ln := (extract_lot_info (row :: rest) filenameLot).1 with hln
      set toInsert := prepare_data_for_insert (row :: rest) ln with hins
      simp only [beq_self_eq_true, if_true]
      have hfilt : (s.lotData.filter (fun r => !(r.lotNumber == ln)) ++
          toInsert).filter (fun r => !(r.lotNumber == ln)) =
          s.lotData.filter (fun r => !(r.lotNumber == ln)) := by
        rw [List.filter_append, List.filter_filter]
        have h1 : toInsert.filter (fun r => !(r.lotNumber == ln)) = [] := by
          rw [List.filter_eq_nil_iff]
          intro r hr
          have := prepare_lotNumber (row :: rest) ln r hr
          simp [this]
        rw [h1, List.append_nil]
        have : (fun (a : LotDataRec) =>
            !(a.lotNumber == ln) && !(a.lotNumber == ln)) =
            fun (r : LotDataRec) => !(r.lotNumber == ln) := by
          funext a
          cases a.lotNumber == ln <;> rfl
        rw [this]
      simp only [hfilt]
  · cases rows with
    | nil => exact List.prefix_refl _
    | cons row rest =>
      simp only [process_csv_file, List.isEmpty_cons, Bool.false_eq_true,
        if_false]
      have : ("initial_load" == "incremental_load") = false := by decide
      simp only [this, Bool.false_eq_true, if_false]
      exact ⟨_, rfl⟩

/-- C10: on an artifact whose CSV parses to zero rows, the Loader's per-file
operation returns 0 and leaves the destination store entirely unchanged:
no lot upsert, no detail-row delete or insert, no processing-history
entry. -/
theorem C10_empty_file (filenameLot : String) (processType : String)
    (s : DBState) :
    process_csv_file filenameLot [] processType s = (0, s) :=
  rfl

end LoaderTheorems
